import Mathlib

/-!
Verification of the housing-market simulator frontend client.

This file gives a shallow embedding of the client-side simulation code of
the repository: the WebSocket stream handler, the simulation control
actions (start, pause, resume, reset), the reconnect logic, the rent-burden
computations of the housing grid and the policy-comparison pages, the
event-log move classification, and the per-unit history maintained by the
property-detail page.  Numeric JavaScript values are modelled as rationals,
nullable fields as `Option`, and the React component state as an explicit
record that the handlers transform.
-/

namespace Housing

/-! ### Data model

Mirrors the `Unit`, `Frame`, `SimulationParams` interfaces of the
simulation context (src/unnamed/part_001, lines 3-89). -/

/-- Household view nested inside a unit of a frame. -/
structure HouseholdView where
  id : Int
  name : String
  income : ℚ
  satisfaction : ℚ
  size : Nat
  monthly_payment : Option ℚ
  deriving DecidableEq, Repr

/-- Rental unit as it appears in a streamed frame. -/
structure SimUnit where
  id : Int
  occupants : Nat
  rent : ℚ
  is_occupied : Bool
  quality : Option ℚ
  household : Option HouseholdView
  deriving DecidableEq, Repr

/-- Aggregate metrics of a frame. -/
structure FrameMetrics where
  total_units : Nat
  occupied_units : Nat
  average_rent : ℚ
  total_population : Nat
  deriving DecidableEq, Repr

/-- Move record of a frame: both unit ids are nullable. -/
structure Move where
  household_id : Int
  household_name : String
  from_unit_id : Option Int
  to_unit_id : Option Int
  deriving DecidableEq, Repr

/-- Frame snapshot streamed once per period. -/
structure Frame where
  year : Int
  period : Int
  units : List SimUnit
  metrics : FrameMetrics
  moves : List Move
  deriving DecidableEq, Repr

/-- Run status of the client (part_001 line 117). -/
inductive Status where
  | idle
  | running
  | paused
  | error
  deriving DecidableEq, Repr

/-- React state of the simulation provider (part_001 lines 113-119).
The `ws` field is the WebSocket state variable; `some ()` means a socket
object is held. -/
structure ClientState where
  frame : Option Frame
  isRunning : Bool
  isPaused : Bool
  error : Option String
  status : Status
  taskId : Option String
  ws : Option Unit
  deriving DecidableEq, Repr

/-- Parsed JSON message received on the simulation stream: an object with
an optional `type` discriminator, an optional `message` text, and the
frame payload that `setFrame` stores when the message is not a control
message. -/
structure StreamMsg where
  ty : Option String
  message : Option String
  body : Frame
  deriving DecidableEq, Repr

/-- The `onmessage` handler of `connectWebSocket`
(src/unnamed/part_001, lines 187-229), successful-parse path. -/
def onmessage (s : ClientState) (m : StreamMsg) : ClientState :=
  if m.ty = some "paused" then
    { s with isPaused := true, status := .paused, isRunning := false }
  else if m.ty = some "resumed" then
    { s with isPaused := false, status := .running, isRunning := true }
  else if m.ty = some "complete" then
    { s with isPaused := false, isRunning := false, status := .idle, taskId := none }
  else if m.ty = some "error" then
    { s with error := m.message, status := .error, isRunning := false, isPaused := false }
  else
    { s with frame := some m.body, error := none }

/-- The catch branch of `onmessage`: a message that fails to parse
(part_001 lines 222-228). -/
def onParseFailure (s : ClientState) : ClientState :=
  { s with error := some "Error parsing simulation data", status := .error,
           isRunning := false, isPaused := false }

/-- Classification used by the spec: a stream message is a control message
exactly when its `type` field is one of the four control discriminators. -/
def isControlMessage (m : StreamMsg) : Bool :=
  decide (m.ty = some "paused" ∨ m.ty = some "resumed" ∨
          m.ty = some "complete" ∨ m.ty = some "error")

/-- C1: every message received on the simulation stream is handled as a
control message exactly when its `type` field is "paused", "resumed",
"complete" or "error" — setting status paused, running, idle and error
respectively, with the error text taken from the message's `message`
field — and any other successfully parsed message is stored as the
current frame. -/
theorem c1_stream_message_classification (s : ClientState) (m : StreamMsg) :
    ((onmessage s m).frame = if isControlMessage m then s.frame else some m.body) ∧
    ((onmessage s m).status =
      if m.ty = some "paused" then Status.paused
      else if m.ty = some "resumed" then Status.running
      else if m.ty = some "complete" then Status.idle
      else if m.ty = some "error" then Status.error
      else s.status) ∧
    ((onmessage s m).error =
      if m.ty = some "error" then m.message
      else if isControlMessage m then s.error else none) := by
  unfold onmessage isControlMessage
  by_cases h1 : m.ty = some "paused" <;>
    by_cases h2 : m.ty = some "resumed" <;>
      by_cases h3 : m.ty = some "complete" <;>
        by_cases h4 : m.ty = some "error" <;>
          simp_all

/-! ### Control actions

The API actions of the simulation provider (part_001 lines 264-396).
Each `fetch` call is parameterised by its outcome: the request can
succeed, return a non-ok HTTP status (which the code turns into a thrown
`Error`, except in reset where it is merely logged), or fail at the
network layer (the `fetch` promise rejects). -/

/-- Outcome of a backend request. -/
inductive FetchOutcome where
  | ok
  | httpError
  | networkFail
  deriving DecidableEq, Repr

/-- The `startSimulation` action (part_001 lines 265-295), state effects
only.  On success it stores the task id, marks the run as running and
connects a fresh WebSocket; any failure lands in the catch block which
records an error message and the error status. -/
def startSimulationFn (s : ClientState) (simId : String) (o : FetchOutcome) :
    ClientState :=
  match o with
  | .ok =>
    { s with error := none, taskId := some simId, status := .running,
             isRunning := true, isPaused := false, ws := some () }
  | _ =>
    { s with error := some "Failed to start simulation", status := .error }

/-- The `pauseSimulation` action (part_001 lines 297-321): a no-op without
a task id; on success sets the paused state, on failure the error state. -/
def pauseSimulationFn (s : ClientState) (o : FetchOutcome) : ClientState :=
  match s.taskId with
  | none => s
  | some _ =>
    match o with
    | .ok => { s with isPaused := true, status := .paused, isRunning := false }
    | _ => { s with error := some "Failed to pause simulation", status := .error }

/-- The `resumeSimulation` action (part_001 lines 323-342). -/
def resumeSimulationFn (s : ClientState) (o : FetchOutcome) : ClientState :=
  match s.taskId with
  | none => s
  | some _ =>
    match o with
    | .ok => { s with isPaused := false, status := .running, isRunning := true }
    | _ => { s with error := some "Failed to resume simulation", status := .error }

/-- The `resetSimulation` action (part_001 lines 344-378).  Local state is
reset first, the socket is closed and cleared, then a reset control
request is sent only when a task id is present (a non-ok response is only
logged; a rejected fetch lands in the catch block before `setTaskId(null)`
runs).  The returned Boolean records whether a backend control request was
attempted. -/
def resetSimulationFn (s : ClientState) (o : FetchOutcome) :
    ClientState × Bool :=
  let s1 : ClientState :=
    { s with isRunning := false, isPaused := false, frame := none,
             error := none, status := .idle, ws := none }
  match s.taskId with
  | none => ({ s1 with taskId := none }, false)
  | some _ =>
    match o with
    | .networkFail =>
      ({ s1 with error := some "Failed to reset simulation", status := .error }, true)
    | _ => ({ s1 with taskId := none }, true)

/-- The status-synchronisation effect (part_001 lines 252-262). -/
def syncEffect (s : ClientState) : ClientState :=
  if s.status = .running ∧ s.isRunning = false ∧ s.isPaused = false then
    { s with isRunning := true }
  else if s.status = .paused ∧ s.isRunning = true then
    { s with isRunning := false }
  else if s.status = .idle ∧ (s.isRunning = true ∨ s.isPaused = true) then
    { s with isRunning := false, isPaused := false }
  else s

/-- One client transition: a stream message (or a parse failure), a
control action with its fetch outcome, or a run of the synchronisation
effect. -/
inductive ClientAction where
  | message (m : StreamMsg)
  | parseFailure
  | start (simId : String) (o : FetchOutcome)
  | pause (o : FetchOutcome)
  | resume (o : FetchOutcome)
  | reset (o : FetchOutcome)
  | sync

/-- Applies one client transition to the provider state. -/
def clientStep (s : ClientState) (a : ClientAction) : ClientState :=
  match a with
  | .message m => onmessage s m
  | .parseFailure => onParseFailure s
  | .start simId o => startSimulationFn s simId o
  | .pause o => pauseSimulationFn s o
  | .resume o => resumeSimulationFn s o
  | .reset o => (resetSimulationFn s o).1
  | .sync => syncEffect s

/-- Initial provider state (part_001 lines 113-119: `useState` initials). -/
def initialClientState : ClientState :=
  { frame := none, isRunning := false, isPaused := false, error := none,
    status := .idle, taskId := none, ws := none }

/-- Mutual-exclusion invariant of the run flags: never simultaneously
running and paused, and the idle status forces both flags off. -/
def ClientInv (s : ClientState) : Prop :=
  ¬(s.isRunning = true ∧ s.isPaused = true) ∧
  (s.status = .idle → s.isRunning = false ∧ s.isPaused = false)

/-- Every single transition preserves the run-flag invariant. -/
theorem clientStep_preserves_inv (s : ClientState) (a : ClientAction)
    (h : ClientInv s) : ClientInv (clientStep s a) := by
  obtain ⟨h1, h2⟩ := h
  cases a with
  | message m =>
    unfold clientStep onmessage
    by_cases c1 : m.ty = some "paused" <;>
      by_cases c2 : m.ty = some "resumed" <;>
        by_cases c3 : m.ty = some "complete" <;>
          by_cases c4 : m.ty = some "error" <;>
            simp_all [ClientInv]
  | parseFailure => simp_all [clientStep, onParseFailure, ClientInv]
  | start simId o => cases o <;> simp_all [clientStep, startSimulationFn, ClientInv]
  | pause o =>
    unfold clientStep pauseSimulationFn
    cases s.taskId <;> [skip; cases o] <;> simp_all [ClientInv]
  | resume o =>
    unfold clientStep resumeSimulationFn
    cases s.taskId <;> [skip; cases o] <;> simp_all [ClientInv]
  | reset o =>
    unfold clientStep resetSimulationFn
    cases s.taskId <;> [skip; cases o] <;> simp_all [ClientInv]
  | sync =>
    unfold clientStep syncEffect
    split_ifs with g1 g2 g3 <;> simp_all [ClientInv]

/-- C9: in every client state reachable from the initial state through
stream message handling (including parse failures), the control actions
start, pause, resume, reset, and the status-synchronisation effect, the
`isRunning` and `isPaused` flags are never simultaneously true, and the
idle status implies both are false. -/
theorem c9_run_flag_invariant (acts : List ClientAction) :
    ClientInv (acts.foldl clientStep initialClientState) := by
  have base : ClientInv initialClientState := by
    simp [ClientInv, initialClientState]
  have step : ∀ (l : List ClientAction) (s : ClientState),
      ClientInv s → ClientInv (l.foldl clientStep s) := by
    intro l
    induction l with
    | nil => intro s hs; simpa using hs
    | cons a t ih =>
      intro s hs
      exact ih (clientStep s a) (clientStep_preserves_inv s a hs)
  exact step acts initialClientState base

/-- The fully reset idle state that `resetSimulation` produces. -/
def resetIdleState : ClientState :=
  { frame := none, isRunning := false, isPaused := false, error := none,
    status := .idle, taskId := none, ws := none }

/-- C8: resetting twice is the same as resetting once — provided the
reset requests do not reject at the network layer, both call sequences
end in the idle state with no frame, no error, no socket and no task id,
and the second call sends no backend control request. -/
theorem c8_reset_idempotent (s : ClientState) (o1 o2 : FetchOutcome)
    (h1 : o1 ≠ .networkFail) (h2 : o2 ≠ .networkFail) :
    (resetSimulationFn s o1).1 = resetIdleState ∧
    (resetSimulationFn (resetSimulationFn s o1).1 o2).1 = (resetSimulationFn s o1).1 ∧
    (resetSimulationFn (resetSimulationFn s o1).1 o2).2 = false := by
  unfold resetSimulationFn
  cases hs : s.taskId <;> cases o1 <;> simp_all [resetIdleState]

/-- Concrete instantiation of the reset idempotence theorem: a running
client with an open socket and an active task. -/
theorem c8_reset_idempotent_witness :
    (resetSimulationFn
      { frame := none, isRunning := true, isPaused := false,
        error := some "boom", status := .running, taskId := some "t1",
        ws := some () } FetchOutcome.ok).1 = resetIdleState ∧
    (resetSimulationFn resetIdleState FetchOutcome.ok).1 = resetIdleState ∧
    (resetSimulationFn resetIdleState FetchOutcome.ok).2 = false := by
  have h := c8_reset_idempotent
    { frame := none, isRunning := true, isPaused := false,
      error := some "boom", status := .running, taskId := some "t1",
      ws := some () } FetchOutcome.ok FetchOutcome.ok
    (by decide) (by decide)
  obtain ⟨ha, hb, hc⟩ := h
  refine ⟨ha, ?_, ?_⟩
  · rw [ha] at hb; exact hb
  · rw [ha] at hc; exact hc

/-! ### Start request body

The parameters accepted by `startSimulation` and the JSON body it
serialises (part_001 lines 82-89 and 268-277), together with the
parameter object built by the simulation page's `handleStart`
(src/frontend/src/pages/SimulationPage.tsx, lines 100-151). -/

/-- JSON values appearing in the start request body. -/
inductive JsonVal where
  | num (q : ℚ)
  | boolean (b : Bool)
  deriving DecidableEq, Repr

/-- Optional simulation parameters (part_001 lines 82-89). -/
structure SimulationParams where
  initial_households : Option ℚ := none
  migration_rate : Option ℚ := none
  years : Option ℚ := none
  rent_cap_enabled : Option Bool := none
  lvt_enabled : Option Bool := none
  lvt_rate : Option ℚ := none
  deriving DecidableEq, Repr

/-- The JSON object `startSimulation` posts to `/simulation/start`
(part_001 lines 271-276), as an ordered key-value list.  Note that only
four keys are serialised. -/
def startRequestBody (p : SimulationParams) : List (String × JsonVal) :=
  [("initial_households", .num (p.initial_households.getD 20)),
   ("migration_rate", .num (p.migration_rate.getD (1 / 10))),
   ("years", .num (p.years.getD 10)),
   ("rent_cap_enabled", .boolean (p.rent_cap_enabled.getD false))]

/-- Policy selector of the simulation page controls. -/
inductive PolicyType where
  | noPolicy
  | rentCap
  | lvt
  deriving DecidableEq, Repr

/-- Control state of the simulation page (SimulationPage.tsx lines
100-118).  The page initialises `lvt_rate` to 0.10. -/
structure SimulationControls where
  initial_households : ℚ
  migration_rate : ℚ
  years : ℚ
  policy_type : PolicyType
  rent_cap_enabled : Option Bool
  lvt_rate : ℚ
  deriving DecidableEq, Repr

/-- The params object built by `handleStart` (SimulationPage.tsx lines
125-151): the three base fields always, plus the policy-specific fields
selected by the `policy_type` switch. -/
def handleStartParams (c : SimulationControls) : SimulationParams :=
  let base : SimulationParams :=
    { initial_households := some c.initial_households,
      migration_rate := some c.migration_rate,
      years := some c.years }
  match c.policy_type with
  | .rentCap => { base with rent_cap_enabled := some true }
  | .lvt => { base with lvt_enabled := some true, lvt_rate := some c.lvt_rate }
  | .noPolicy => base

/-- Simulation page controls with the Land Value Tax policy selected and
the default 0.10 rate. -/
def lvtControls : SimulationControls :=
  { initial_households := 20, migration_rate := 1 / 10, years := 10,
    policy_type := .lvt, rent_cap_enabled := some false, lvt_rate := 1 / 10 }

/-- C4: with the Land Value Tax policy selected, `handleStart` does put
`lvt_enabled` and `lvt_rate` into the params object, but the request body
that `startSimulation` serialises carries only four keys — the
`lvt_enabled` flag and `lvt_rate` value never reach the backend, contrary
to the six-field contract of the simulation control API. -/
theorem c4_lvt_fields_dropped :
    (handleStartParams lvtControls).lvt_enabled = some true ∧
    (handleStartParams lvtControls).lvt_rate = some (1 / 10) ∧
    (startRequestBody (handleStartParams lvtControls)).map Prod.fst =
      ["initial_households", "migration_rate", "years", "rent_cap_enabled"] ∧
    "lvt_enabled" ∉ (startRequestBody (handleStartParams lvtControls)).map Prod.fst ∧
    "lvt_rate" ∉ (startRequestBody (handleStartParams lvtControls)).map Prod.fst := by
  refine ⟨rfl, rfl, rfl, ?_, ?_⟩ <;> decide

/-- C5: every omitted config field of the params object is filled with
the observed default before the start request is sent:
`initial_households` 20, `migration_rate` 0.1, `years` 10 and
`rent_cap_enabled` false. -/
theorem c5_start_defaults (p : SimulationParams) :
    (p.initial_households = none →
      List.lookup "initial_households" (startRequestBody p) = some (.num 20)) ∧
    (p.migration_rate = none →
      List.lookup "migration_rate" (startRequestBody p) = some (.num (1 / 10))) ∧
    (p.years = none →
      List.lookup "years" (startRequestBody p) = some (.num 10)) ∧
    (p.rent_cap_enabled = none →
      List.lookup "rent_cap_enabled" (startRequestBody p) = some (.boolean false)) := by
  refine ⟨?_, ?_, ?_, ?_⟩ <;> intro h <;> simp [startRequestBody, h, List.lookup]

/-- Concrete instantiation of the defaults theorem on the empty params
object (every field omitted). -/
theorem c5_start_defaults_witness :
    List.lookup "initial_households" (startRequestBody {}) = some (.num 20) ∧
    List.lookup "migration_rate" (startRequestBody {}) = some (.num (1 / 10)) ∧
    List.lookup "years" (startRequestBody {}) = some (.num 10) ∧
    List.lookup "rent_cap_enabled" (startRequestBody {}) = some (.boolean false) := by
  obtain ⟨h1, h2, h3, h4⟩ := c5_start_defaults {}
  exact ⟨h1 rfl, h2 rfl, h3 rfl, h4 rfl⟩

/-! ### Rent-burden computations

Three frontend computations of a unit's rent burden (in percent):
the housing-grid tooltip (HousingGrid.tsx line 44), the first
`extractMetrics` of the policy-comparison page (part_002 line 172) and
the second `extractMetrics` (part_002 lines 811-827). -/

/-- Rent burden shown by the housing-grid tooltip:
`(rent * 12) / household.income * 100`. -/
def housingGridRentBurden (rent income : ℚ) : ℚ :=
  rent * 12 / income * 100

/-- Per-unit rent burden of the first policy-comparison
`extractMetrics`: `(u.rent * 12) / u.household.income * 100`. -/
def extractMetricsBurdenA (rent income : ℚ) : ℚ :=
  rent * 12 / income * 100

/-- Per-unit rent burden of the second policy-comparison
`extractMetrics`: mortgage payment over income for owner-occupiers
(positive `monthly_payment`), rent over income for renters. -/
def extractMetricsBurdenB (rent income : ℚ) (monthlyPayment : Option ℚ) : ℚ :=
  match monthlyPayment with
  | some mp => if 0 < mp then mp / income * 100 else rent / income * 100
  | none => rent / income * 100

/-- C3 counterexample: for a renter household with monthly rent 100 and
income 1200, the housing-grid tooltip reports a rent burden of 100 % while
the second `extractMetrics` reports 100/1200 of income — the two frontend
computations disagree, and the tooltip value is not monthly housing cost
divided by monthly income. -/
theorem c3_rent_burden_counterexample :
    housingGridRentBurden 100 1200 ≠ extractMetricsBurdenB 100 1200 none ∧
    housingGridRentBurden 100 1200 = 100 ∧
    extractMetricsBurdenB 100 1200 none = 100 / 1200 * 100 := by
  refine ⟨?_, ?_, ?_⟩ <;> norm_num [housingGridRentBurden, extractMetricsBurdenB]

/-- C3 amended: the housing-grid tooltip and the first policy-comparison
`extractMetrics` both compute `(rent * 12) / income * 100` and therefore
agree with each other, while the second `extractMetrics` computes monthly
housing cost over income times 100 — the mortgage payment when a positive
`monthly_payment` is present, the rent otherwise — so for renters the
first two values are twelve times the third. -/
theorem c3_rent_burden_relations (rent income mp : ℚ) :
    housingGridRentBurden rent income = extractMetricsBurdenA rent income ∧
    housingGridRentBurden rent income =
      12 * extractMetricsBurdenB rent income none ∧
    extractMetricsBurdenB rent income none = rent / income * 100 ∧
    extractMetricsBurdenB rent income (some mp) =
      (if 0 < mp then mp else rent) / income * 100 := by
  refine ⟨rfl, ?_, rfl, ?_⟩
  · unfold housingGridRentBurden extractMetricsBurdenB
    ring
  · simp only [extractMetricsBurdenB]
    split_ifs <;> rfl

/-! ### Move-event presentation

The event log's icon and description for `MOVE` events
(SimulationEventLog.tsx lines 66-112) and the housing grid's arrow filter
(HousingGrid.tsx lines 640-645). -/

/-- Icon chosen for a `MOVE` event. -/
inductive MoveIcon where
  | arrowDown
  | arrowUp
  | arrowForward
  deriving DecidableEq, Repr

/-- Description chosen for a `MOVE` event. -/
inductive MoveDesc where
  | marketEntry
  | marketDeparture
  | unitToUnit
  deriving DecidableEq, Repr

/-- Icon branch of `getEventIcon` for a `MOVE` event
(SimulationEventLog.tsx lines 76-83). -/
def getMoveEventIcon (fromId toId : Option Int) : MoveIcon :=
  if toId ≠ none ∧ fromId = none then .arrowDown
  else if fromId ≠ none ∧ toId = none then .arrowUp
  else .arrowForward

/-- Description branch of `getEventDescription` for a `MOVE` event
(SimulationEventLog.tsx lines 101-108). -/
def getMoveEventDesc (fromId toId : Option Int) : MoveDesc :=
  if toId ≠ none ∧ fromId = none then .marketEntry
  else if fromId ≠ none ∧ toId = none then .marketDeparture
  else .unitToUnit

/-- The `validMoves` filter of the housing grid's arrow drawing
(HousingGrid.tsx lines 640-642). -/
def drawArrowsFilter (m : Move) : Bool :=
  decide (m.from_unit_id ≠ none) && decide (m.to_unit_id ≠ none)

/-- C6 counterexample: a `MOVE` event whose `from_unit_id` and
`to_unit_id` are both null falls through both guards and is presented
with the unit-to-unit arrow and description, even though neither unit id
is non-null. -/
theorem c6_move_counterexample :
    getMoveEventDesc none none = MoveDesc.unitToUnit ∧
    getMoveEventIcon none none = MoveIcon.arrowForward := by
  exact ⟨rfl, rfl⟩

/-- C6 amended: the event log presents a null `from_unit_id` with a
non-null `to_unit_id` as market entry, a non-null `from_unit_id` with a
null `to_unit_id` as departure from the market, and every remaining move
— both ids non-null, but also the degenerate case where both ids are
null — as a unit-to-unit move; the drawn arrows, by contrast, are
filtered to exactly the moves with both unit ids non-null. -/
theorem c6_move_classification (f t : Option Int) (m : Move) :
    (getMoveEventDesc f t = match f, t with
      | none, some _ => MoveDesc.marketEntry
      | some _, none => MoveDesc.marketDeparture
      | _, _ => MoveDesc.unitToUnit) ∧
    (getMoveEventIcon f t = match f, t with
      | none, some _ => MoveIcon.arrowDown
      | some _, none => MoveIcon.arrowUp
      | _, _ => MoveIcon.arrowForward) ∧
    (drawArrowsFilter m = (m.from_unit_id.isSome && m.to_unit_id.isSome)) := by
  refine ⟨?_, ?_, ?_⟩
  · cases f <;> cases t <;> simp [getMoveEventDesc]
  · cases f <;> cases t <;> simp [getMoveEventIcon]
  · obtain ⟨_, _, mf, mt⟩ := m
    cases mf <;> cases mt <;> simp [drawArrowsFilter]

/-! ### Reconnect logic

The `connectWebSocket` retry machinery (part_001 lines 153-250).  Each
invocation of `connectWebSocket` creates a fresh socket together with a
fresh local `reconnectAttempts` counter (`maxReconnectAttempts = 3`,
`reconnectDelay = 1000`).  `reconnect()` increments the counter and,
while it stays within the bound, replaces the pending timer with one that
fires after `reconnectDelay * reconnectAttempts` ms and calls
`connectWebSocket` again — starting the next generation with a counter at
0; once the bound is exceeded it records the terminal error.  `onopen`
resets the counter of the current generation; `onerror` always calls
`reconnect()`, `onclose` calls it only for a non-1000 close code while
the client counts as running. -/

/-- Lifecycle events of one socket, with the onclose guard folded in:
`closedUnclean` is a close with code ≠ 1000 while running. -/
inductive SockEvent where
  | opened
  | errored
  | closedUnclean
  | closedClean
  deriving DecidableEq, Repr

/-- Result of processing one socket's events: final counter value, delays
of the reconnect attempts scheduled (in order), and whether the
attempts-exhausted error was set. -/
structure GenResult where
  attempts : Nat
  delays : List Nat
  exhausted : Bool
  deriving DecidableEq, Repr

/-- One `reconnect()` call (part_001 lines 163-179) at counter `a`:
within the bound it returns the incremented counter and the scheduled
delay `1000 * (a + 1)`; beyond it, the exhaustion flag. -/
def reconnectCall (a : Nat) : Nat × Option Nat × Bool :=
  if a < 3 then (a + 1, some (1000 * (a + 1)), false) else (a, none, true)

/-- Processes one socket generation's events with the closure-local
attempts counter starting at `a`. -/
def procEvents (a : Nat) : List SockEvent → GenResult
  | [] => { attempts := a, delays := [], exhausted := false }
  | e :: rest =>
    match e with
    | .opened => procEvents 0 rest
    | .closedClean => procEvents a rest
    | .errored | .closedUnclean =>
      let (a', d, exh) := reconnectCall a
      let r := procEvents a' rest
      { attempts := r.attempts, delays := d.toList ++ r.delays,
        exhausted := exh || r.exhausted }

/-- Runs a chain of socket generations: the next generation is entered
only when the current one left a reconnect timer pending (each
`reconnect()` clears the previously pending timer, so at most one fires).
Returns all scheduled delays in order and whether the exhaustion error
was ever set. -/
def runGenerations : List (List SockEvent) → List Nat × Bool
  | [] => ([], false)
  | g :: gs =>
    let r := procEvents 0 g
    if r.delays = [] then (r.delays, r.exhausted)
    else
      let rest := runGenerations gs
      (r.delays ++ rest.1, r.exhausted || rest.2)

/-- Events of one generation that invoke `reconnect()`. -/
def reconnectTriggerCount (evs : List SockEvent) : Nat :=
  (evs.filter fun e => decide (e = .errored ∨ e = .closedUnclean)).length

/-- Closed form of one generation's processing from an arbitrary counter
value, for event lists with no `onopen` reset. -/
theorem procEvents_closed_form (evs : List SockEvent) (a : Nat)
    (ha3 : a ≤ 3) (h : SockEvent.opened ∉ evs) :
    (procEvents a evs).delays =
      (List.range' (a + 1) (min (reconnectTriggerCount evs) (3 - a))).map
        (fun d => 1000 * d) ∧
    (procEvents a evs).exhausted = decide (a + reconnectTriggerCount evs > 3) := by
  induction evs generalizing a with
  | nil =>
    refine ⟨by simp [procEvents, reconnectTriggerCount], ?_⟩
    simp only [procEvents, reconnectTriggerCount, List.filter, List.length_nil]
    exact (decide_eq_false (by omega)).symm
  | cons e rest ih =>
    have h' : SockEvent.opened ∉ rest := fun hm => h (List.mem_cons_of_mem _ hm)
    cases e with
    | opened => exact absurd (List.mem_cons_self _ _) h
    | closedClean =>
      have hcount : reconnectTriggerCount (SockEvent.closedClean :: rest) =
          reconnectTriggerCount rest := by
        simp [reconnectTriggerCount, List.filter]
      rw [show procEvents a (SockEvent.closedClean :: rest) = procEvents a rest
            from rfl, hcount]
      exact ih a ha3 h'
    | errored =>
      have hcount : reconnectTriggerCount (SockEvent.errored :: rest) =
          reconnectTriggerCount rest + 1 := by
        simp [reconnectTriggerCount, List.filter]
      by_cases ha : a < 3
      · have hstep : procEvents a (SockEvent.errored :: rest) =
            { attempts := (procEvents (a + 1) rest).attempts,
              delays := 1000 * (a + 1) :: (procEvents (a + 1) rest).delays,
              exhausted := false || (procEvents (a + 1) rest).exhausted } := by
          simp [procEvents, reconnectCall, ha]
        obtain ⟨ihd, ihe⟩ := ih (a + 1) (by omega) h'
        rw [hstep, hcount]
        constructor
        · have hmin : min (reconnectTriggerCount rest + 1) (3 - a) =
              min (reconnectTriggerCount rest) (3 - (a + 1)) + 1 := by omega
          rw [hmin, List.range'_succ, List.map_cons, ihd]
        · rw [Bool.false_or, ihe]
          exact decide_eq_decide.mpr (by omega)
      · have hstep : procEvents a (SockEvent.errored :: rest) =
            { attempts := (procEvents a rest).attempts,
              delays := (procEvents a rest).delays,
              exhausted := true || (procEvents a rest).exhausted } := by
          simp [procEvents, reconnectCall, ha]
        obtain ⟨ihd0, ihe0⟩ := ih a ha3 h'
        rw [hstep, hcount]
        constructor
        · have h30 : 3 - a = 0 := by omega
          rw [ihd0, h30]
          simp
        · rw [Bool.true_or]
          exact (decide_eq_true (by omega)).symm
    | closedUnclean =>
      have hcount : reconnectTriggerCount (SockEvent.closedUnclean :: rest) =
          reconnectTriggerCount rest + 1 := by
        simp [reconnectTriggerCount, List.filter]
      by_cases ha : a < 3
      · have hstep : procEvents a (SockEvent.closedUnclean :: rest) =
            { attempts := (procEvents (a + 1) rest).attempts,
              delays := 1000 * (a + 1) :: (procEvents (a + 1) rest).delays,
              exhausted := false || (procEvents (a + 1) rest).exhausted } := by
          simp [procEvents, reconnectCall, ha]
        obtain ⟨ihd, ihe⟩ := ih (a + 1) (by omega) h'
        rw [hstep, hcount]
        constructor
        · have hmin : min (reconnectTriggerCount rest + 1) (3 - a) =
              min (reconnectTriggerCount rest) (3 - (a + 1)) + 1 := by omega
          rw [hmin, List.range'_succ, List.map_cons, ihd]
        · rw [Bool.false_or, ihe]
          exact decide_eq_decide.mpr (by omega)
      · have hstep : procEvents a (SockEvent.closedUnclean :: rest) =
            { attempts := (procEvents a rest).attempts,
              delays := (procEvents a rest).delays,
              exhausted := true || (procEvents a rest).exhausted } := by
          simp [procEvents, reconnectCall, ha]
        obtain ⟨ihd0, ihe0⟩ := ih a ha3 h'
        rw [hstep, hcount]
        constructor
        · have h30 : 3 - a = 0 := by omega
          rw [ihd0, h30]
          simp
        · rw [Bool.true_or]
          exact (decide_eq_true (by omega)).symm

/-- Unbounded retries: a chain of generations that each fail once
schedules one reconnect per generation, never setting the exhaustion
error. -/
theorem runGenerations_replicate (n : Nat) :
    (runGenerations (List.replicate (n + 1) [SockEvent.errored])).1.length = n + 1 ∧
    (runGenerations (List.replicate (n + 1) [SockEvent.errored])).2 = false := by
  induction n with
  | zero => decide
  | succ m ih =>
    have hrepl : List.replicate (m + 1 + 1) [SockEvent.errored] =
        [SockEvent.errored] :: List.replicate (m + 1) [SockEvent.errored] := rfl
    have hproc : procEvents 0 [SockEvent.errored] =
        { attempts := 1, delays := [1000], exhausted := false } := rfl
    rw [hrepl]
    show ((let r := procEvents 0 [SockEvent.errored];
      if r.delays = [] then (r.delays, r.exhausted)
      else
        let rest := runGenerations (List.replicate (m + 1) [SockEvent.errored])
        (r.delays ++ rest.1, r.exhausted || rest.2)).1.length = m + 1 + 1 ∧ _)
    rw [hproc]
    simp only [List.cons_ne_nil, if_false, Bool.false_or, List.length_append,
      List.length_cons, List.length_nil, ite_false]
    exact ⟨by rw [ih.1]; omega, ih.2⟩

/-- C7 counterexample: four consecutive failed connections (each socket
firing one error event) lead the client to schedule a fourth
reconnection attempt — still with the base 1000 ms delay — and the
attempts-exhausted error is never set, because every retry runs
`connectWebSocket` afresh and thereby restarts the attempt counter at 0. -/
theorem c7_reconnect_counterexample :
    (runGenerations
      [[SockEvent.errored], [SockEvent.errored],
       [SockEvent.errored], [SockEvent.errored]]).1 = [1000, 1000, 1000, 1000] ∧
    (runGenerations
      [[SockEvent.errored], [SockEvent.errored],
       [SockEvent.errored], [SockEvent.errored]]).2 = false := by
  decide

/-- C7 amended: the 3-attempt bound, the `1000 × n` backoff and the
terminal error all live inside a single `connectWebSocket` invocation:
within one connection the n-th scheduled retry waits `1000 × n` ms, at
most three retries are scheduled, and the exhaustion error is set exactly
when `reconnect()` runs more than three times on that one connection.
Across connections the counter affords no bound: every retry calls
`connectWebSocket` again with a fresh counter at 0, so a chain of `n`
consecutive failed connections schedules `n` reconnection attempts
without ever reaching the terminal error. -/
theorem c7_reconnect_per_connection_bound (evs : List SockEvent)
    (h : SockEvent.opened ∉ evs) (n : Nat) :
    ((procEvents 0 evs).delays =
      (List.range' 1 (min (reconnectTriggerCount evs) 3)).map (fun d => 1000 * d)) ∧
    ((procEvents 0 evs).delays.length ≤ 3) ∧
    ((procEvents 0 evs).exhausted = decide (reconnectTriggerCount evs > 3)) ∧
    ((runGenerations (List.replicate (n + 1) [SockEvent.errored])).1.length = n + 1 ∧
     (runGenerations (List.replicate (n + 1) [SockEvent.errored])).2 = false) := by
  obtain ⟨hd, he⟩ := procEvents_closed_form evs 0 (by omega) h
  refine ⟨by simpa using hd, ?_, by simpa using he, runGenerations_replicate n⟩
  rw [hd]
  simp only [List.length_map, List.length_range']
  omega

/-- Concrete instantiation of the per-connection bound: one socket that
fires an error and three unclean closes schedules retries after 1000,
2000 and 3000 ms and then sets the exhaustion error. -/
theorem c7_reconnect_per_connection_bound_witness :
    (procEvents 0 [SockEvent.errored, SockEvent.closedUnclean,
      SockEvent.closedUnclean, SockEvent.closedUnclean]).delays =
        [1000, 2000, 3000] ∧
    (procEvents 0 [SockEvent.errored, SockEvent.closedUnclean,
      SockEvent.closedUnclean, SockEvent.closedUnclean]).exhausted = true ∧
    (runGenerations (List.replicate 3 [SockEvent.errored])).1.length = 3 := by
  obtain ⟨hd, _, he, hr, _⟩ := c7_reconnect_per_connection_bound
    [SockEvent.errored, SockEvent.closedUnclean,
     SockEvent.closedUnclean, SockEvent.closedUnclean] (by decide) 2
  refine ⟨?_, ?_, hr⟩
  · rw [hd]; rfl
  · rw [he]; rfl

/-! ### Rent cap policy

Modelled from the spec: the `RentCapPolicy` engine itself is backend
Python code that is not present under src (the src tree carries only
compiled bytecode of the simulation factory plus the frontend, whose
policy-comparison intro and help overlay describe the policy).  Spec
sections 4.4 and 8 state that the policy, when enabled, caps the
period-over-period rent increase at the fixed configured percentage. -/

/-- Modelled from the spec: one rent update under the policy — the
landlord's desired rent is admitted only up to the cap
`old_rent * (1 + cap_rate)`; with the policy disabled the desired rent
passes through. -/
def rentCapApply (enabled : Bool) (capRate oldRent desiredRent : ℚ) : ℚ :=
  if enabled then min desiredRent (oldRent * (1 + capRate)) else desiredRent

/-- Modelled from the spec: the rent trajectory of one unit across
consecutive periods, the landlord demanding `desired n` in period `n + 1`
and the policy constraining each update; the configured cap rate stays
fixed along the whole run. -/
def rentTrajectory (enabled : Bool) (capRate r0 : ℚ) (desired : Nat → ℚ) :
    Nat → ℚ
  | 0 => r0
  | n + 1 => rentCapApply enabled capRate (rentTrajectory enabled capRate r0 desired n) (desired n)

/-- C2: with `RentCapPolicy` enabled, for every unit trajectory and every
pair of consecutive periods, the new rent is at most the old rent times
`1 + cap_rate`, the cap rate being the fixed configured percentage. -/
theorem c2_rent_cap_invariant (capRate r0 : ℚ) (desired : Nat → ℚ) (n : Nat) :
    rentTrajectory true capRate r0 desired (n + 1) ≤
      rentTrajectory true capRate r0 desired n * (1 + capRate) := by
  show rentCapApply true capRate (rentTrajectory true capRate r0 desired n) (desired n) ≤ _
  unfold rentCapApply
  simp only [if_true]
  exact min_le_right _ _

/-! ### Property-detail unit history

The history effect of the property-detail page.  Two variants exist in
the sources: one replaces the entry of an already-recorded period with
the fresh entry (part_003 lines 147-188 and part_004 lines 164-206), the
other leaves the list unchanged (part_004 lines 748-768).  Both append
the new entry and re-sort by ascending period when the period is new;
`Array.prototype.sort` with the comparator `a.period - b.period` is a
stable ascending sort, modelled by `List.mergeSort`. -/

/-- Entry of the per-unit history series (part_003 lines 165-175). -/
structure UnitHistoryEntry where
  period : Int
  occupants : Nat
  rent : ℚ
  occupancyRate : ℚ
  quality : ℚ
  satisfaction : ℚ
  rentBurden : ℚ
  income : ℚ
  deriving DecidableEq, Repr

/-- Builds the `newEntry` object from the current frame's period and the
displayed unit (part_003 lines 158-175). -/
def mkHistoryEntry (framePeriod : Int) (u : SimUnit) : UnitHistoryEntry :=
  { period := framePeriod,
    occupants := u.occupants,
    rent := u.rent,
    occupancyRate := if u.is_occupied then 100 else 0,
    quality := u.quality.getD 0 * 100,
    satisfaction :=
      match u.household with
      | some h => max 0 (min 1 h.satisfaction) * 100
      | none => 0,
    rentBurden :=
      match u.household with
      | some h => u.rent * 12 / h.income * 100
      | none => 0,
    income :=
      match u.household with
      | some h => h.income
      | none => 0 }

/-- One run of the history effect's state update (part_003 lines
147-188 with `replaceExisting := true`; part_004 lines 748-768 with
`replaceExisting := false`). -/
def updateUnitHistory (replaceExisting : Bool)
    (prev : List UnitHistoryEntry) (e : UnitHistoryEntry) :
    List UnitHistoryEntry :=
  if prev.any fun p => p.period == e.period then
    if replaceExisting then
      prev.map fun p => if p.period == e.period then e else p
    else prev
  else
    (prev ++ [e]).mergeSort fun a b => a.period ≤ b.period

/-- Folds a stream of (frame period, unit snapshot) observations through
the history effect, starting from the empty history. -/
def runHistory (replaceExisting : Bool) (obs : List (Int × SimUnit)) :
    List UnitHistoryEntry :=
  obs.foldl (fun h pu => updateUnitHistory replaceExisting h (mkHistoryEntry pu.1 pu.2)) []

/-- Strictly ascending periods: at most one entry per period and sorted
in ascending period order. -/
def HistorySorted (l : List UnitHistoryEntry) : Prop :=
  (l.map fun e => e.period).Sorted (· < ·)

instance (l : List UnitHistoryEntry) : Decidable (HistorySorted l) := by
  unfold HistorySorted List.Sorted
  infer_instance

/-- The update step preserves strict period sortedness. -/
theorem updateUnitHistory_sorted (replaceExisting : Bool)
    (prev : List UnitHistoryEntry) (e : UnitHistoryEntry)
    (h : HistorySorted prev) :
    HistorySorted (updateUnitHistory replaceExisting prev e) := by
  unfold updateUnitHistory
  by_cases hex : prev.any fun p => p.period == e.period
  · rw [if_pos hex]
    by_cases hr : replaceExisting = true
    · rw [if_pos hr]
      have hmap : ((prev.map fun p => if p.period == e.period then e else p).map
          fun x => x.period) = prev.map fun x => x.period := by
        rw [List.map_map]
        apply List.map_congr_left
        intro p _
        by_cases hp : p.period = e.period
        · simp [Function.comp, hp]
        · simp [Function.comp, hp]
      unfold HistorySorted
      rw [hmap]
      exact h
    · rw [if_neg hr]
      exact h
  · rw [if_neg hex]
    have hperm : List.Perm ((prev ++ [e]).mergeSort fun a b => a.period ≤ b.period)
        (prev ++ [e]) := List.mergeSort_perm _ _
    have hpair : ((prev ++ [e]).mergeSort fun a b => a.period ≤ b.period).Pairwise
        (fun a b => decide (a.period ≤ b.period) = true) :=
      List.sorted_mergeSort
        (fun a b c hab hbc => by
          simp only [decide_eq_true_eq] at *
          omega)
        (fun a b => by
          simp only [Bool.or_eq_true, decide_eq_true_eq]
          omega)
        (prev ++ [e])
    have hle : ((prev ++ [e]).mergeSort fun a b => a.period ≤ b.period).Pairwise
        (fun a b => a.period ≤ b.period) := by
      refine hpair.imp ?_
      intro a b hab
      simpa using hab
    have hfresh : e.period ∉ prev.map fun x => x.period := by
      intro hmem
      apply hex
      rw [List.any_eq_true]
      obtain ⟨p, hp, hpe⟩ := List.mem_map.mp hmem
      exact ⟨p, hp, by simp [hpe]⟩
    have hnodup : ((prev ++ [e]).map fun x => x.period).Nodup := by
      rw [List.map_append]
      refine List.Nodup.append (h.nodup) (by simp) ?_
      intro q hq hq'
      simp only [List.map_cons, List.map_nil, List.mem_singleton] at hq'
      exact hfresh (hq' ▸ hq)
    have hnodup' : (((prev ++ [e]).mergeSort fun a b => a.period ≤ b.period).map
        fun x => x.period).Nodup := (hperm.map _).nodup_iff.mpr hnodup
    unfold HistorySorted
    have hsortle : (((prev ++ [e]).mergeSort fun a b => a.period ≤ b.period).map
        fun x => x.period).Sorted (· ≤ ·) :=
      List.Pairwise.map _ (fun a b hab => hab) hle
    exact List.Sorted.lt_of_le hsortle hnodup'

/-- C10: the per-unit history maintained by the property-detail page
always holds at most one entry per period, in ascending period order
(for every stream of observed frames and for both source variants of the
effect); and re-receiving an already-recorded period never appends a
duplicate — the replace variant substitutes that period's entry in place,
the keep variant returns the list unchanged, and in both variants the
period sequence of the list is unchanged. -/
theorem c10_history_sorted_no_duplicates (replaceExisting : Bool)
    (obs : List (Int × SimUnit)) (prev : List UnitHistoryEntry)
    (e : UnitHistoryEntry) (hmem : e.period ∈ prev.map fun x => x.period) :
    HistorySorted (runHistory replaceExisting obs) ∧
    updateUnitHistory true prev e =
      (prev.map fun p => if p.period == e.period then e else p) ∧
    updateUnitHistory false prev e = prev ∧
    ((updateUnitHistory replaceExisting prev e).map fun x => x.period) =
      (prev.map fun x => x.period) := by
  have hex : (prev.any fun p => p.period == e.period) = true := by
    rw [List.any_eq_true]
    obtain ⟨p, hp, hpe⟩ := List.mem_map.mp hmem
    exact ⟨p, hp, by simp [hpe]⟩
  refine ⟨?_, ?_, ?_, ?_⟩
  · unfold runHistory
    have gen : ∀ (l : List (Int × SimUnit)) (acc : List UnitHistoryEntry),
        HistorySorted acc →
        HistorySorted (l.foldl
          (fun h pu => updateUnitHistory replaceExisting h (mkHistoryEntry pu.1 pu.2)) acc) := by
      intro l
      induction l with
      | nil => intro acc hacc; simpa using hacc
      | cons x t ih =>
        intro acc hacc
        exact ih _ (updateUnitHistory_sorted replaceExisting acc _ hacc)
    exact gen obs [] (by simp [HistorySorted])
  · unfold updateUnitHistory
    rw [if_pos hex, if_pos rfl]
  · unfold updateUnitHistory
    rw [if_pos hex]
    simp
  · unfold updateUnitHistory
    rw [if_pos hex]
    by_cases hr : replaceExisting = true
    · rw [if_pos hr, List.map_map]
      apply List.map_congr_left
      intro p _
      by_cases hp : p.period = e.period
      · simp [Function.comp, hp]
      · simp [Function.comp, hp]
    · rw [if_neg hr]

/-- Concrete instantiation of the history theorem: a two-observation
stream and a re-received period 1 on a one-entry history. -/
theorem c10_history_sorted_no_duplicates_witness :
    HistorySorted (runHistory true
      [(2, { id := 1, occupants := 2, rent := 900, is_occupied := true,
             quality := some (1 / 2), household := none }),
       (1, { id := 1, occupants := 1, rent := 800, is_occupied := true,
             quality := some (1 / 2), household := none })]) ∧
    ((updateUnitHistory true
        [{ period := 1, occupants := 1, rent := 800, occupancyRate := 100,
           quality := 50, satisfaction := 0, rentBurden := 0, income := 0 }]
        { period := 1, occupants := 2, rent := 850, occupancyRate := 100,
          quality := 40, satisfaction := 0, rentBurden := 0, income := 0 }).map
      fun x => x.period) = [1] := by
  have h := c10_history_sorted_no_duplicates true
    [(2, { id := 1, occupants := 2, rent := 900, is_occupied := true,
           quality := some (1 / 2), household := none }),
     (1, { id := 1, occupants := 1, rent := 800, is_occupied := true,
           quality := some (1 / 2), household := none })]
    [{ period := 1, occupants := 1, rent := 800, occupancyRate := 100,
       quality := 50, satisfaction := 0, rentBurden := 0, income := 0 }]
    { period := 1, occupants := 2, rent := 850, occupancyRate := 100,
      quality := 40, satisfaction := 0, rentBurden := 0, income := 0 }
    (by simp)
  exact ⟨h.1, h.2.2.2⟩

end Housing
